import Mathlib

/-!
Shallow embedding of the NovaFlow voice-agent server (`main.py`): the
per-connection streaming orchestrator.  Pure Lean definitions mirror the
relevant Python functions; external collaborators (AssemblyAI, Gemini,
Tavily, Murf) are represented by explicit inputs recording what they
returned, and client-visible effects are recorded as message lists.
-/

namespace NovaFlow

/-! ### Audio configuration constants (`main.py` lines 55-57) -/

def SAMPLE_RATE : Nat := 44100

def MIN_AUDIO_DURATION_MS : Nat := 1000

/-- `MIN_BUFFER_SIZE = int(SAMPLE_RATE * MIN_AUDIO_DURATION_MS / 1000 * 2)`. -/
def MIN_BUFFER_SIZE : Nat := SAMPLE_RATE * MIN_AUDIO_DURATION_MS / 1000 * 2

/-! ### Python string helpers

`transcript.lower()`, `re.sub(r'[^\w\s]', '', s)`, `.split()`, and the
Python substring test `needle in hay`, modelled over ASCII inputs. -/

/-- Python `str.lower()`. -/
def pyLower (s : String) : String := String.mk (s.toList.map Char.toLower)

/-- A character matched by the regex class `\w` (ASCII view). -/
def isPyWordChar (c : Char) : Bool := c.isAlphanum || c == '_'

/-- `re.sub(r'[^\w\s]', '', s)`: drop every character that is neither a
word character nor whitespace. -/
def stripPunct (s : String) : String :=
  String.mk (s.toList.filter (fun c => isPyWordChar c || c.isWhitespace))

/-- Whitespace-splitting worker: `acc` holds the current word reversed. -/
def splitWsAux : List Char → List Char → List String
  | [], acc => if acc.isEmpty then [] else [String.mk acc.reverse]
  | c :: cs, acc =>
    if c.isWhitespace then
      (if acc.isEmpty then [] else [String.mk acc.reverse]) ++ splitWsAux cs []
    else splitWsAux cs (c :: acc)

/-- Python `str.split()` with no argument: split on whitespace, dropping
empty pieces. -/
def pySplit (s : String) : List String := splitWsAux s.toList []

/-- `set(re.sub(r'[^\w\s]', '', s.lower()).split())` viewed as a list of
words (membership is what the code uses the set for). -/
def pyWords (s : String) : List String := pySplit (stripPunct (pyLower s))

/-- `a :: List Char` begins `b`. -/
def charsStartWith : List Char → List Char → Bool
  | [], _ => true
  | _ :: _, [] => false
  | a :: as, b :: bs => a == b && charsStartWith as bs

/-- `a` occurs contiguously inside `b`. -/
def charsContain (a : List Char) : List Char → Bool
  | [] => charsStartWith a []
  | b :: bs => charsStartWith a (b :: bs) || charsContain a bs

/-- Python `needle in hay` on strings. -/
def pyContains (needle hay : String) : Bool :=
  charsContain needle.toList hay.toList

/-- Python `str.strip()`: drop leading and trailing whitespace. -/
def pyStrip (s : String) : String :=
  String.mk (((s.toList.dropWhile Char.isWhitespace).reverse.dropWhile
    Char.isWhitespace).reverse)

/-- Nonempty set intersection `query_words & filename_words`. -/
def wordsOverlap (a b : List String) : Bool := a.any (fun w => b.contains w)

/-- A single-quote character, for rebuilding the rewritten query text. -/
def sq : String := String.singleton (Char.ofNat 39)

/-! ### Knowledge-base query rewrite (`stream_gemini_response`, lines 384-392)

```python
if USER_SETTINGS.get("includeKnowledgeBase", True) and "summary" in transcript.lower():
    query_words = set(re.sub(r'[^\w\s]', '', transcript.lower()).split())
    for filename in KNOWLEDGE_BASE:
        filename_words = set(re.sub(r'[^\w\s]', '', filename.lower()).split())
        if query_words & filename_words:
            transcript = f"Summarize the content of the file ...filename..."
            break
```
`kbNames` is the knowledge-base dict's key list in insertion order. -/
def rewriteQuery (includeKB : Bool) (kbNames : List String) (transcript : String) : String :=
  if includeKB && pyContains "summary" (pyLower transcript) then
    match kbNames.find? (fun fn => wordsOverlap (pyWords transcript) (pyWords fn)) with
    | some fn => "Summarize the content of the file " ++ sq ++ fn ++ sq
    | none => transcript
  else transcript

/-! ### User settings (`USER_SETTINGS`, lines 62-76) -/

structure Settings where
  voiceId : String
  playbackSpeed : Rat
  conversationType : String
  micSensitivity : Nat
  audioQuality : String
  autoSaveHistory : Bool
  includeKnowledgeBase : Bool
  enableSearch : Bool
  maxSearchResults : Nat
  enableSound : Bool
  notificationDuration : Nat
  theme : String
  accentColor : String
deriving DecidableEq, Repr

/-- The default `USER_SETTINGS` dict contents. -/
def defaultSettings : Settings :=
  { voiceId := "en-IN-alia"
    playbackSpeed := 1
    conversationType := "casual"
    micSensitivity := 50
    audioQuality := "medium"
    autoSaveHistory := true
    includeKnowledgeBase := true
    enableSearch := true
    maxSearchResults := 3
    enableSound := true
    notificationDuration := 4
    theme := "dark"
    accentColor := "orange" }

/-! ### Settings reset (`reset_settings`, lines 282-311) -/

/-- Process-wide mutable state touched by `reset_settings`:
`USER_API_KEYS`, `USER_OVERRIDE_ENV`, `USER_SETTINGS`. -/
structure AppState where
  userApiKeys : List (String × String)
  userOverrideEnv : Bool
  userSettings : Settings
deriving DecidableEq, Repr

inductive ResetResp
  | ok (msg : String)
  | err (msg : String)
deriving DecidableEq, Repr

/-- `POST /reset_settings` with body `data`: on `data.get("reset")` truthy,
reinstate the default keys/override/settings; otherwise report an invalid
request and change nothing. -/
def reset_settings (reset : Bool) (st : AppState) : AppState × ResetResp :=
  if reset then
    ({ userApiKeys := [], userOverrideEnv := false, userSettings := defaultSettings },
     .ok "Settings reset successfully.")
  else (st, .err "Invalid reset request")

/-! ### Connection session state machine (`ws_handler`, lines 528-684)

One `ws_handler` invocation owns: `audio_buffer`, `last_send_time`,
`start_time`, the `transcriber` object (connected once, at line 584, before
the receive loop), the batches streamed to the transcriber, and the frames
sent to the client.  Wall-clock times are modelled as millisecond
timestamps supplied with each incoming frame (each `datetime.now()` call
reads the current event's timestamp); elapsed times are their differences.
Bytes are modelled as `Nat`.  The `text:`/`speak:` branches call
`stream_gemini_response` / the Murf relay (modelled separately below) and
touch none of the session fields. -/

/-- Client-visible frames the session loop itself sends. -/
inductive SessionMsg
  | startedText
  | stoppedText
  | soundAlert (v : String)
  | errorTooShort (elapsedMs : Nat)
  | errorInsufficient (bytes : Nat)
deriving DecidableEq, Repr

structure SessionState where
  audioBuffer : List Nat
  lastSendTime : Nat
  startTime : Option Nat
  transcriberConnects : Nat
  transcriberClosed : Bool
  flushes : List (List Nat)
  sent : List SessionMsg
deriving DecidableEq, Repr

/-- State after lines 584-587: `transcriber.connect()` has run once,
`audio_buffer = bytearray()`, `last_send_time = datetime.now()` (= `t0`). -/
def initSession (t0 : Nat) : SessionState :=
  { audioBuffer := []
    lastSendTime := t0
    startTime := none
    transcriberConnects := 1
    transcriberClosed := false
    flushes := []
    sent := [] }

/-- `data == "start"` branch (lines 596-600). -/
def stepStart (st : Settings) (s : SessionState) (now : Nat) : SessionState :=
  { s with
    startTime := some now
    sent := s.sent ++ [.startedText]
      ++ (if st.enableSound then [.soundAlert "start"] else []) }

/-- `data == "stop"` branch (lines 601-621).  `elapsed_ms` is `0` when no
`start` was ever received (`if start_time else 0`).  Note the flush branch
streams `audio_buffer` without clearing it, and no branch clears it. -/
def stepStop (st : Settings) (s : SessionState) (now : Nat) : SessionState :=
  let elapsed := match s.startTime with
    | some t => now - t
    | none => 0
  let s1 :=
    if elapsed < MIN_AUDIO_DURATION_MS then
      { s with sent := s.sent ++ [.errorTooShort elapsed] }
    else if s.audioBuffer ≠ [] ∧ MIN_BUFFER_SIZE ≤ s.audioBuffer.length then
      { s with flushes := s.flushes ++ [s.audioBuffer] }
    else
      { s with sent := s.sent ++ [.errorInsufficient s.audioBuffer.length] }
  { s1 with
    transcriberClosed := true
    sent := s1.sent ++ [.stoppedText]
      ++ (if st.enableSound then [.soundAlert "stop"] else []) }

/-- Binary-frame branch (lines 659-673): extend the buffer, then flush it
to the transcriber and reset it exactly when both 100 ms have passed since
`last_send_time` and the buffer reaches `MIN_BUFFER_SIZE`. -/
def stepBinary (s : SessionState) (now : Nat) (data : List Nat) : SessionState :=
  let buf := s.audioBuffer ++ data
  let elapsed := now - s.lastSendTime
  if 100 ≤ elapsed ∧ MIN_BUFFER_SIZE ≤ buf.length then
    { s with
      audioBuffer := []
      lastSendTime := now
      flushes := s.flushes ++ [buf] }
  else
    { s with audioBuffer := buf }

/-- The client frames the modelled part of the receive loop handles. -/
inductive ClientFrame
  | start
  | stop
  | binary (data : List Nat)
deriving DecidableEq, Repr

def stepFrame (st : Settings) (s : SessionState) : Nat × ClientFrame → SessionState
  | (now, .start) => stepStart st s now
  | (now, .stop) => stepStop st s now
  | (now, .binary data) => stepBinary s now data

/-- Run the receive loop over a timestamped frame trace. -/
def runSession (st : Settings) (t0 : Nat) (events : List (Nat × ClientFrame)) : SessionState :=
  events.foldl (stepFrame st) (initSession t0)

/-! ### Credential resolution (`get_api_key`, lines 116-136)

Result: the key string, paired with whether an error frame was scheduled
for the client (`asyncio.create_task(websocket.send_json(...))`, only when
a websocket was passed).  `os.getenv(k, "")` / `USER_API_KEYS.get(k, "")`
are lookups in association lists defaulting to `""`; Python truthiness of
a string is nonemptiness. -/

/-- `d.get(k, "")`. -/
def lookupD (m : List (String × String)) (k : String) : String :=
  ((m.find? (fun p => p.1 == k)).map Prod.snd).getD ""

def get_api_key (overrideEnv : Bool) (userApiKeys envVars : List (String × String))
    (keyName : String) (hasWebsocket : Bool) : String × Bool :=
  let envKey := lookupD envVars keyName
  let userKey := lookupD userApiKeys keyName
  if overrideEnv && userKey != "" then (userKey, false)
  else if envKey != "" then (envKey, false)
  else if userKey != "" then (userKey, false)
  else ("", hasWebsocket)

/-! ### Speech synthesis relay (Murf websocket loops)

The identical read loops at lines 404-430, 479-505 and 635-658: a first
`recv` (10 s timeout), then `while not is_final:` further `recv`s (5 s
timeout each).  A frame's `audio` field is forwarded (with its `is_final`
flag) only when nonempty; `is_final` is read from every frame.  The input
list is the sequence of frames the Murf service delivers before any
timeout; running out of frames models a timeout, which stops the loop. -/

structure Chunk where
  audio : String
  isFinal : Bool
deriving DecidableEq, Repr

/-- Chunks forwarded to the client, in order, as (base64 audio, is_final). -/
def relayMurf : List Chunk → List (String × Bool)
  | [] => []
  | c :: rest =>
    (if c.audio == "" then [] else [(c.audio, c.isFinal)])
      ++ (if c.isFinal then [] else relayMurf rest)

/-! ### Web search (`tavily_search`, lines 341-361) -/

structure SearchResult where
  title : String
  content : String
  url : String
deriving DecidableEq, Repr

/-- One line of the result summary:
`f"⟨idx⟩. ⟨title⟩: ⟨content[:200]⟩... (Source: ⟨url⟩)\n"`. -/
def summaryLine (idx : Nat) (r : SearchResult) : String :=
  toString idx ++ ". " ++ r.title ++ ": " ++ r.content.take 200
    ++ "... (Source: " ++ r.url ++ ")\n"

def summaryLinesFrom (idx : Nat) : List SearchResult → String
  | [] => ""
  | r :: rs => summaryLine idx r ++ summaryLinesFrom (idx + 1) rs

/-- `tavily_search`: returns the summary text plus any error frame sent to
the client.  `status200` and `results` record what the Tavily HTTP call
returned. -/
def tavily_search (st : Settings) (status200 : Bool) (results : List SearchResult) :
    String × List String :=
  if st.enableSearch = false then ("Search is disabled in settings.", [])
  else if status200 then
    if results = [] then ("No search results found.", [])
    else ("Here are the top search results:\n" ++ summaryLinesFrom 1 results, [])
  else
    ("Error: Unable to perform web search (status).",
     ["Error: Unable to perform web search (status)."])

/-! ### Reply dispatcher (`stream_gemini_response`, lines 363-526) -/

/-- Server-to-client frames `stream_gemini_response` can emit. -/
inductive DispatchMsg
  | userEcho (data : String) (isFinal : Bool)
  | errorMsg (data : String)
  | searchMsg (data : String)
  | responseMsg (data : String)
  | audioMsg (data : String) (isFinal : Bool)
  | zapierMsg (data : String)
deriving DecidableEq, Repr

structure DispatchResult where
  messages : List DispatchMsg
  history : List (String × String)
  result : Option String
deriving DecidableEq, Repr

/-- External collaborators' behaviour for one dispatcher call. -/
structure DispatchEnv where
  envVars : List (String × String)
  userApiKeys : List (String × String)
  userOverrideEnv : Bool
  tavilyStatus200 : Bool
  searchResults : List SearchResult
  modelReply : String
  murfChunks : List Chunk
deriving Repr

/-- `save_chat_history` (lines 92-114): one `(query, reply)` entry appended
when `autoSaveHistory` is on, none otherwise. -/
def save_chat_history (st : Settings) (q r : String) : List (String × String) :=
  if st.autoSaveHistory then [(q, r)] else []

/-- `"send to email" in original.lower() or "email the summary" in original.lower()`. -/
def emailCue (original : String) : Bool :=
  pyContains "send to email" (pyLower original)
    || pyContains "email the summary" (pyLower original)

/-- `any(word in transcript.lower() for word in ["search", "find", "look up"])`. -/
def containsSearchCue (t : String) : Bool :=
  ["search", "find", "look up"].any (fun w => pyContains w (pyLower t))

/-- `stream_gemini_response(chat_id, transcript, websocket, is_voice_input)`.
`kb` is the knowledge-base dict as an insertion-ordered association list.
Murf-key and Zapier-key lookups are not modelled (they only build URLs);
the Gemini call itself is abstract (`env.modelReply`). -/
def stream_gemini_response (st : Settings) (kb : List (String × String))
    (env : DispatchEnv) (transcript : String) (isVoice : Bool) : DispatchResult :=
  if pyStrip transcript = "" then
    ⟨[.errorMsg "Invalid query provided"], [], none⟩
  else
    let echo : List DispatchMsg := [.userEcho transcript true]
    let gk := get_api_key env.userOverrideEnv env.userApiKeys env.envVars
      "gemini_api_key" true
    let gkErr : List DispatchMsg :=
      if gk.2 then [.errorMsg "No gemini_api_key found in .env or user-provided keys"] else []
    if gk.1 = "" then
      ⟨echo ++ gkErr ++ [.errorMsg "No valid Gemini API key found"], [], none⟩
    else
      let original := transcript
      let t := rewriteQuery st.includeKnowledgeBase (kb.map Prod.fst) transcript
      if st.enableSearch && containsSearchCue t then
        let tv := tavily_search st env.tavilyStatus200 env.searchResults
        let acc := tv.1
        let tvErrs : List DispatchMsg := tv.2.map .errorMsg
        let audios : List DispatchMsg :=
          if isVoice then (relayMurf env.murfChunks).map (fun p => .audioMsg p.1 p.2) else []
        let tail : List DispatchMsg :=
          if acc ≠ "" then [.searchMsg acc] else []
        let hist := if acc ≠ "" then save_chat_history st original acc else []
        let zap : List DispatchMsg :=
          if emailCue original then [.zapierMsg "Email sent successfully"] else []
        ⟨echo ++ gkErr ++ tvErrs ++ audios ++ tail ++ zap, hist, some acc⟩
      else
        let acc := env.modelReply
        let audios : List DispatchMsg :=
          if isVoice then (relayMurf env.murfChunks).map (fun p => .audioMsg p.1 p.2) else []
        let tail : List DispatchMsg :=
          if acc ≠ "" then
            [.responseMsg acc]
              ++ (if emailCue original then [.zapierMsg "Email sent successfully"] else [])
          else []
        let hist := if acc ≠ "" then save_chat_history st original acc else []
        ⟨echo ++ gkErr ++ audios ++ tail, hist, some acc⟩

/-! ## Theorems -/

theorem stepBinary_flushes (s : SessionState) (now : Nat) (data : List Nat) :
    (stepBinary s now data).flushes
      = if 100 ≤ now - s.lastSendTime ∧ MIN_BUFFER_SIZE ≤ (s.audioBuffer ++ data).length
        then s.flushes ++ [s.audioBuffer ++ data] else s.flushes := by
  simp only [stepBinary]
  split <;> rfl

theorem stepBinary_audioBuffer (s : SessionState) (now : Nat) (data : List Nat) :
    (stepBinary s now data).audioBuffer
      = if 100 ≤ now - s.lastSendTime ∧ MIN_BUFFER_SIZE ≤ (s.audioBuffer ++ data).length
        then [] else s.audioBuffer ++ data := by
  simp only [stepBinary]
  split <;> rfl

theorem stepStop_audioBuffer (st : Settings) (s : SessionState) (now : Nat) :
    (stepStop st s now).audioBuffer = s.audioBuffer := by
  simp only [stepStop]
  split <;> split <;> rfl

theorem stepStop_transcriberClosed (st : Settings) (s : SessionState) (now : Nat) :
    (stepStop st s now).transcriberClosed = true := by
  simp only [stepStop]

/-- Claim C1: while audio is being received, a binary frame flushes the
accumulated buffer to the transcription bridge if and only if at least
100 ms have elapsed since the last flush and the accumulated buffer holds
at least `MIN_BUFFER_SIZE = 88200` bytes (44100 Hz, 16-bit mono, 1000 ms);
otherwise that frame causes no flush. -/
theorem c1_binary_flush_iff (s : SessionState) (now : Nat) (data : List Nat) :
    ((stepBinary s now data).flushes ≠ s.flushes ↔
      100 ≤ now - s.lastSendTime ∧ MIN_BUFFER_SIZE ≤ (s.audioBuffer ++ data).length)
    ∧ MIN_BUFFER_SIZE = 88200 := by
  constructor
  · rw [stepBinary_flushes]
    by_cases h : 100 ≤ now - s.lastSendTime ∧ MIN_BUFFER_SIZE ≤ (s.audioBuffer ++ data).length
    · rw [if_pos h]
      refine iff_of_true ?_ h
      intro heq
      have hlen := congrArg List.length heq
      simp at hlen
    · rw [if_neg h]
      exact iff_of_false (by simp) h
  · decide

/-- A full audio buffer: exactly `MIN_BUFFER_SIZE` bytes. -/
def bigBuf : List Nat := List.replicate MIN_BUFFER_SIZE 0

theorem bigBuf_length : bigBuf.length = MIN_BUFFER_SIZE := by
  simp [bigBuf]

theorem bigBuf_ne_nil : bigBuf ≠ [] := by
  intro h
  have := congrArg List.length h
  rw [bigBuf_length] at this
  simp [MIN_BUFFER_SIZE, SAMPLE_RATE, MIN_AUDIO_DURATION_MS] at this

/-- Claim C2 counterexample: a `stop` after ≥ 1000 ms with a full buffer
performs the final flush, yet the flushed bytes remain in the buffer — the
buffer is not cleared after that successful flush, contradicting the claim
that it is cleared after every flush (frame-triggered or final). -/
theorem c2_counterexample :
    (stepStop defaultSettings
        { initSession 0 with audioBuffer := bigBuf, startTime := some 0 } 2000).flushes
      = [bigBuf]
    ∧ (stepStop defaultSettings
        { initSession 0 with audioBuffer := bigBuf, startTime := some 0 } 2000).audioBuffer
      = bigBuf
    ∧ bigBuf ≠ [] := by
  have hb := bigBuf_ne_nil
  have hl := bigBuf_length
  refine ⟨?_, ?_, hb⟩ <;>
    simp [stepStop, initSession, hb, hl, MIN_AUDIO_DURATION_MS]

/-- Claim C2 amended: a flush triggered by an incoming binary frame clears
the buffer immediately, but the `stop` handler never modifies the buffer at
all — in particular the final flush on `stop` leaves the flushed bytes
buffered, so they can be flushed again on a later turn. -/
theorem c2_amended_thm (s : SessionState) (now : Nat) (data : List Nat) :
    ((stepBinary s now data).flushes ≠ s.flushes → (stepBinary s now data).audioBuffer = [])
    ∧ ∀ (st : Settings) (now2 : Nat), (stepStop st s now2).audioBuffer = s.audioBuffer := by
  constructor
  · intro hfl
    rw [stepBinary_flushes] at hfl
    rw [stepBinary_audioBuffer]
    by_cases h : 100 ≤ now - s.lastSendTime ∧ MIN_BUFFER_SIZE ≤ (s.audioBuffer ++ data).length
    · rw [if_pos h]
    · rw [if_neg h] at hfl
      exact absurd rfl hfl
  · intro st now2
    exact stepStop_audioBuffer st s now2

theorem c2_amended_witness :
    (stepBinary (initSession 0) 200 bigBuf).flushes ≠ (initSession 0).flushes
    ∧ (stepBinary (initSession 0) 200 bigBuf).audioBuffer = [] := by
  have h : (stepBinary (initSession 0) 200 bigBuf).flushes ≠ (initSession 0).flushes := by
    have hl := bigBuf_length
    simp [stepBinary, initSession, hl]
  exact ⟨h, (c2_amended_thm (initSession 0) 200 bigBuf).1 h⟩

/-- Claim C3 counterexample: with knowledge-base documents
`notes.txt, report.txt` and query `give me a summary of report`, the code
does not rewrite the query at all (so the effective query does not
reference `report.txt`): the tokenizer strips the dot from the filename,
whose only token becomes `reporttxt`, which the query words never match. -/
theorem c3_counterexample :
    rewriteQuery true ["notes.txt", "report.txt"] "give me a summary of report"
      = "give me a summary of report"
    ∧ pyContains "report.txt"
        (rewriteQuery true ["notes.txt", "report.txt"] "give me a summary of report")
      = false
    ∧ pyWords "report.txt" = ["reporttxt"] := by decide

/-- Claim C3 amended: the rewrite fires only when the query words overlap
the punctuation-stripped tokens of a document name (`report.txt` collapses
to the single token `reporttxt`).  Hence `give me a summary of report` is
left unchanged, while `give me a summary of reporttxt` is rewritten to
reference `report.dot-txt`; when several documents match, the first in
insertion order wins. -/
theorem c3_amended_thm :
    rewriteQuery true ["notes.txt", "report.txt"] "give me a summary of reporttxt"
      = "Summarize the content of the file " ++ sq ++ "report.txt" ++ sq
    ∧ rewriteQuery true ["notes.txt", "report.txt"] "give me a summary of report"
      = "give me a summary of report"
    ∧ rewriteQuery true ["notes.txt", "report.txt"]
        "give me a summary of notestxt and reporttxt"
      = "Summarize the content of the file " ++ sq ++ "notes.txt" ++ sq := by decide

/-- Claim C4 counterexample: `stop` at 500 ms with 3 buffered bytes reports
the too-short error and performs no flush, but the audio buffer is not
discarded — its 3 bytes are still there after the `stop`. -/
theorem c4_counterexample :
    (runSession defaultSettings 0
        [(0, .start), (50, .binary [1, 2, 3]), (500, .stop)]).audioBuffer = [1, 2, 3]
    ∧ (runSession defaultSettings 0
        [(0, .start), (50, .binary [1, 2, 3]), (500, .stop)]).audioBuffer ≠ []
    ∧ SessionMsg.errorTooShort 500
        ∈ (runSession defaultSettings 0
            [(0, .start), (50, .binary [1, 2, 3]), (500, .stop)]).sent
    ∧ (runSession defaultSettings 0
        [(0, .start), (50, .binary [1, 2, 3]), (500, .stop)]).flushes = [] := by decide

/-- Claim C4 amended: when `stop` arrives before 1000 ms of recording, the
session reports the too-short error, performs no flush, and closes the
transcriber connection; the audio buffer is left unchanged rather than
discarded. -/
theorem c4_amended_thm (st : Settings) (s : SessionState) (now t : Nat)
    (hstart : s.startTime = some t) (hshort : now - t < MIN_AUDIO_DURATION_MS) :
    (stepStop st s now).sent
      = s.sent ++ [.errorTooShort (now - t)] ++ [.stoppedText]
        ++ (if st.enableSound then [.soundAlert "stop"] else [])
    ∧ (stepStop st s now).flushes = s.flushes
    ∧ (stepStop st s now).audioBuffer = s.audioBuffer
    ∧ (stepStop st s now).transcriberClosed = true := by
  unfold stepStop
  rw [hstart]
  simp [hshort]

theorem c4_amended_witness :
    (stepStart defaultSettings (initSession 0) 0).startTime = some 0
    ∧ (stepStop defaultSettings (stepStart defaultSettings (initSession 0) 0) 500).audioBuffer
      = (stepStart defaultSettings (initSession 0) 0).audioBuffer
    ∧ (stepStop defaultSettings (stepStart defaultSettings (initSession 0) 0) 500).flushes
      = (stepStart defaultSettings (initSession 0) 0).flushes :=
  ⟨by decide,
   (c4_amended_thm defaultSettings (stepStart defaultSettings (initSession 0) 0) 500 0
      (by decide) (by decide)).2.2.1,
   (c4_amended_thm defaultSettings (stepStart defaultSettings (initSession 0) 0) 500 0
      (by decide) (by decide)).2.1⟩

theorem tavily_result_ne_empty (st : Settings) (b : Bool) (rs : List SearchResult) :
    (tavily_search st b rs).1 ≠ "" := by
  unfold tavily_search
  split
  · decide
  · split
    · split
      · decide
      · intro h
        have hl := congrArg String.length h
        rw [String.length_append] at hl
        have hp : 0 < ("Here are the top search results:\n").length := by decide
        have h0 : ("" : String).length = 0 := by decide
        rw [h0] at hl
        omega
    · decide

/-- Claim C5: with search enabled, a query whose effective (possibly
knowledge-base-rewritten) text contains one of the cue words `search`,
`find`, `look up` takes the search branch and bypasses the language-model
branch entirely: a `search`-typed message is emitted and no
`response`-typed message is emitted that turn. -/
theorem c5_search_bypasses_model (st : Settings) (kb : List (String × String))
    (env : DispatchEnv) (transcript : String) (isVoice : Bool)
    (hne : pyStrip transcript ≠ "")
    (hkey : (get_api_key env.userOverrideEnv env.userApiKeys env.envVars
      "gemini_api_key" true).1 ≠ "")
    (hsearch : st.enableSearch = true)
    (hcue : containsSearchCue
      (rewriteQuery st.includeKnowledgeBase (kb.map Prod.fst) transcript) = true) :
    (∃ d, DispatchMsg.searchMsg d ∈ (stream_gemini_response st kb env transcript isVoice).messages)
    ∧ ∀ d, DispatchMsg.responseMsg d
        ∉ (stream_gemini_response st kb env transcript isVoice).messages := by
  have hacc := tavily_result_ne_empty st env.tavilyStatus200 env.searchResults
  have hmsgs : (stream_gemini_response st kb env transcript isVoice).messages
      = [DispatchMsg.userEcho transcript true]
        ++ (if (get_api_key env.userOverrideEnv env.userApiKeys env.envVars
              "gemini_api_key" true).2 then
              [DispatchMsg.errorMsg "No gemini_api_key found in .env or user-provided keys"]
            else [])
        ++ (tavily_search st env.tavilyStatus200 env.searchResults).2.map DispatchMsg.errorMsg
        ++ (if isVoice then
              (relayMurf env.murfChunks).map (fun p => DispatchMsg.audioMsg p.1 p.2)
            else [])
        ++ [DispatchMsg.searchMsg (tavily_search st env.tavilyStatus200 env.searchResults).1]
        ++ (if emailCue transcript then [DispatchMsg.zapierMsg "Email sent successfully"]
            else []) := by
    simp only [stream_gemini_response, if_neg hne, if_neg hkey, hsearch, hcue,
      Bool.and_self, if_true, if_pos hacc]
  constructor
  · exact ⟨(tavily_search st env.tavilyStatus200 env.searchResults).1,
      by rw [hmsgs]; simp⟩
  · intro d hd
    rw [hmsgs] at hd
    simp only [List.mem_append] at hd
    rcases hd with ((((h | h) | h) | h) | h) | h
    · simp at h
    · revert h
      split <;> simp
    · simp at h
    · revert h
      split <;> simp
    · simp at h
    · revert h
      split <;> simp

theorem c5_witness :
    (∃ d, DispatchMsg.searchMsg d
      ∈ (stream_gemini_response defaultSettings []
          ⟨[("gemini_api_key", "k")], [], false, true, [], "", []⟩
          "search for weather today" false).messages)
    ∧ ∀ d, DispatchMsg.responseMsg d
        ∉ (stream_gemini_response defaultSettings []
            ⟨[("gemini_api_key", "k")], [], false, true, [], "", []⟩
            "search for weather today" false).messages :=
  c5_search_bypasses_model defaultSettings []
    ⟨[("gemini_api_key", "k")], [], false, true, [], "", []⟩
    "search for weather today" false (by decide) (by decide) (by decide) (by decide)

/-- The frames the relay loop examines: everything up to and including the
first frame whose terminal flag is set. -/
def takeThroughFinal : List Chunk → List Chunk
  | [] => []
  | c :: rest => c :: (if c.isFinal then [] else takeThroughFinal rest)

/-- Claim C6: the speech relay forwards exactly the nonempty-audio frames
among those up to and including the first terminal frame, each tagged with
its terminal flag and in arrival order; in particular the 3-chunk scenario
(A nonfinal, B nonfinal, empty final) delivers exactly A then B. -/
theorem c6_relay_forwarding :
    (∀ frames, relayMurf frames
      = ((takeThroughFinal frames).filter (fun c => c.audio != "")).map
          (fun c => (c.audio, c.isFinal)))
    ∧ relayMurf [⟨"A", false⟩, ⟨"B", false⟩, ⟨"", true⟩]
      = [("A", false), ("B", false)] := by
  constructor
  · intro frames
    induction frames with
    | nil => rfl
    | cons c rest ih =>
      by_cases haud : c.audio = "" <;> cases hfin : c.isFinal <;>
        simp [relayMurf, takeThroughFinal, List.filter_cons, haud, hfin, ih]
  · decide

theorem stepStop_transcriberConnects (st : Settings) (s : SessionState) (now : Nat) :
    (stepStop st s now).transcriberConnects = s.transcriberConnects := by
  simp only [stepStop]
  split <;> split <;> rfl

theorem stepBinary_transcriberConnects (s : SessionState) (now : Nat) (data : List Nat) :
    (stepBinary s now data).transcriberConnects = s.transcriberConnects := by
  simp only [stepBinary]
  split <;> rfl

/-- Claim C7 counterexample: over two complete recording turns on one
connection the session establishes a single transcriber connection (the
one made before the receive loop), not one per turn; moreover the second
turn starts with the transcriber already closed by the first `stop`. -/
theorem c7_counterexample :
    (runSession defaultSettings 0
        [(0, .start), (1500, .stop), (2000, .start), (3500, .stop)]).transcriberConnects = 1
    ∧ (runSession defaultSettings 0
        [(0, .start), (1500, .stop), (2000, .start)]).transcriberClosed = true := by decide

/-- Claim C7 amended: the session establishes exactly one transcriber
connection per WebSocket connection — before the receive loop, regardless
of how many recording turns the trace contains — and every `stop` closes
that shared connection; no step ever establishes another. -/
theorem c7_amended_thm :
    (∀ (st : Settings) (t0 : Nat) (events : List (Nat × ClientFrame)),
      (runSession st t0 events).transcriberConnects = 1)
    ∧ ∀ (st : Settings) (s : SessionState) (now : Nat),
        (stepStop st s now).transcriberClosed = true := by
  constructor
  · intro st t0 events
    have key : ∀ (evs : List (Nat × ClientFrame)) (s : SessionState),
        (evs.foldl (stepFrame st) s).transcriberConnects = s.transcriberConnects := by
      intro evs
      induction evs with
      | nil => intro s; rfl
      | cons e rest ih =>
        intro s
        rw [List.foldl_cons, ih]
        rcases e with ⟨now, f⟩
        cases f with
        | start => rfl
        | stop => exact stepStop_transcriberConnects st s now
        | binary data => exact stepBinary_transcriberConnects s now data
    exact key events (initSession t0)
  · exact stepStop_transcriberClosed

/-- Claim C8: resetting the settings is idempotent — after one reset the
settings are the defaults, and resetting again leaves the identical state
and response. -/
theorem c8_reset_idempotent (st : AppState) :
    (reset_settings true st).1.userSettings = defaultSettings
    ∧ (reset_settings true (reset_settings true st).1).1 = (reset_settings true st).1
    ∧ (reset_settings true (reset_settings true st).1).2 = (reset_settings true st).2 :=
  ⟨rfl, rfl, rfl⟩

/-- Claim C9: a `stop` with no prior `start` (no recorded start time) is
treated as elapsed 0 ms: the client gets the too-short error, nothing is
flushed, and the transcriber connection is still closed — the handler
neither rejects nor crashes on the out-of-state `stop`. -/
theorem c9_stop_without_start (st : Settings) (s : SessionState) (now : Nat)
    (h : s.startTime = none) :
    (stepStop st s now).sent
      = s.sent ++ [.errorTooShort 0] ++ [.stoppedText]
        ++ (if st.enableSound then [.soundAlert "stop"] else [])
    ∧ (stepStop st s now).flushes = s.flushes
    ∧ (stepStop st s now).transcriberClosed = true := by
  have hlt : (0 : Nat) < MIN_AUDIO_DURATION_MS := by decide
  refine ⟨?_, ?_, ?_⟩ <;>
    simp [stepStop, h, if_pos hlt]

theorem c9_witness :
    (stepStop defaultSettings (initSession 0) 5000).transcriberClosed = true
    ∧ (stepStop defaultSettings (initSession 0) 5000).flushes = (initSession 0).flushes :=
  ⟨(c9_stop_without_start defaultSettings (initSession 0) 5000 rfl).2.2,
   (c9_stop_without_start defaultSettings (initSession 0) 5000 rfl).2.1⟩

/-- Claim C10: credential resolution precedence — if the override flag is
set and a user key exists, the user key wins; otherwise a nonempty
environment key wins; otherwise a nonempty user key; and when neither key
exists the result is the empty string with an error frame sent exactly
when a client connection was supplied. -/
theorem c10_key_precedence (overrideEnv : Bool)
    (userApiKeys envVars : List (String × String)) (k : String) (hasWs : Bool) :
    (overrideEnv = true → lookupD userApiKeys k ≠ "" →
      get_api_key overrideEnv userApiKeys envVars k hasWs = (lookupD userApiKeys k, false))
    ∧ (¬(overrideEnv = true ∧ lookupD userApiKeys k ≠ "") → lookupD envVars k ≠ "" →
      get_api_key overrideEnv userApiKeys envVars k hasWs = (lookupD envVars k, false))
    ∧ (lookupD envVars k = "" → lookupD userApiKeys k ≠ "" →
      get_api_key overrideEnv userApiKeys envVars k hasWs = (lookupD userApiKeys k, false))
    ∧ (lookupD userApiKeys k = "" → lookupD envVars k = "" →
      get_api_key overrideEnv userApiKeys envVars k hasWs = ("", hasWs)) := by
  refine ⟨?_, ?_, ?_, ?_⟩
  · intro h1 h2
    simp [get_api_key, h1, h2]
  · intro h1 h2
    by_cases ho : overrideEnv = true
    · have hu : lookupD userApiKeys k = "" := by
        by_contra hu
        exact h1 ⟨ho, hu⟩
      simp [get_api_key, ho, hu, h2]
    · have ho' : overrideEnv = false := by
        simpa using ho
      simp [get_api_key, ho', h2]
  · intro h1 h2
    by_cases ho : overrideEnv = true
    · simp [get_api_key, ho, h1, h2]
    · have ho' : overrideEnv = false := by
        simpa using ho
      simp [get_api_key, ho', h1, h2]
  · intro h1 h2
    simp [get_api_key, h1, h2]

theorem c10_witness :
    get_api_key false [] [] "gemini_api_key" true = ("", true) :=
  (c10_key_precedence false [] [] "gemini_api_key" true).2.2.2 rfl rfl

end NovaFlow
